import Mathlib

/-!
Shallow embedding of the Guard-Ai Risk Discipline Engine
(`backend/risk_engine/models.py`, `backend/risk_engine/views.py`,
`backend/journal/views.py`).

Modelling conventions:
* Monetary `DecimalField(decimal_places=2)` values are integers in cents;
  `fmtDec2` renders them the way the Python str(Decimal) conversion does (two decimals),
  as used by the f-strings building lock reasons.
* `timezone.now()` is threaded as an explicit argument `now : DateTime`;
  `now.minutes` is the absolute timeline (minutes) used for the 12-hour
  cooldown comparison, `now.date` is what `now.date()` reports.
* Nullable columns (`lock_reason`, `locked_at`, `result`, `pnl`) are `Option`s;
  Python truthiness of `trade.pnl` is `none`-or-zero falsiness.
-/

namespace GuardAi

/-- Calendar date, as produced by `timezone.now().date()`. -/
structure Date where
  year : Int
  month : Int
  day : Int
deriving DecidableEq, Repr

/-- An instant: absolute minutes on the timeline plus its calendar date. -/
structure DateTime where
  minutes : Int
  date : Date
deriving DecidableEq, Repr

/-- The `RiskProfile` model (`risk_engine/models.py` lines 6-34).
Money fields are in cents. -/
structure RiskProfile where
  max_daily_loss : Int
  max_trades_per_day : Int
  max_trades_monthly : Int
  max_trades_yearly : Int
  current_daily_loss : Int
  trades_today : Int
  trades_this_month : Int
  trades_this_year : Int
  is_locked : Bool
  lock_reason : Option String
  locked_at : Option DateTime
  last_reset_date : Date
  last_monthly_reset : Date
  last_yearly_reset : Date
deriving DecidableEq, Repr

/-- Rendering of an `Option String` inside a Python f-string
(the f-string that builds "Account Locked: ..."): `None` prints as "None". -/
def optStr : Option String → String
  | none => "None"
  | some s => s

/-- Rendering of a cents value the way `str(Decimal)` with two decimal
places does, e.g. `fmtDec2 20000 = "200.00"`. -/
def fmtDec2 (cents : Int) : String :=
  let n := cents.natAbs
  let frac := n % 100
  (if cents < 0 then "-" else "") ++ toString (n / 100) ++ "." ++
    (if frac < 10 then "0" ++ toString frac else toString frac)

/-- `RiskProfile.lock_account` (`models.py` lines 87-92): disables trading
and records the breach timestamp. -/
def lock_account (p : RiskProfile) (reason : String) (now : DateTime) : RiskProfile :=
  { p with is_locked := true, lock_reason := some reason, locked_at := some now }

/-- `RiskProfile.reset_daily_stats` (`models.py` lines 94-102): zeroes daily
metrics and releases the lock; monthly/yearly counters are untouched. -/
def reset_daily_stats (p : RiskProfile) (now : DateTime) : RiskProfile :=
  { p with current_daily_loss := 0, trades_today := 0, is_locked := false,
           lock_reason := none, locked_at := none, last_reset_date := now.date }

/-- `RiskProfile.reset_monthly_stats` (`models.py` lines 104-108). -/
def reset_monthly_stats (p : RiskProfile) (now : DateTime) : RiskProfile :=
  { p with trades_this_month := 0, last_monthly_reset := now.date }

/-- `RiskProfile.reset_yearly_stats` (`models.py` lines 110-114). -/
def reset_yearly_stats (p : RiskProfile) (now : DateTime) : RiskProfile :=
  { p with trades_this_year := 0, last_yearly_reset := now.date }

/-- The three periodic-reset checks at the top of `check_discipline`
(`models.py` lines 49-57), run in source order. -/
def resolve_rollovers (p : RiskProfile) (now : DateTime) : RiskProfile :=
  let today := now.date
  let p1 := if p.last_reset_date ≠ today then reset_daily_stats p now else p
  let p2 := if p1.last_monthly_reset.month ≠ today.month ∨
               p1.last_monthly_reset.year ≠ today.year
            then reset_monthly_stats p1 now else p1
  if p2.last_yearly_reset.year ≠ today.year then reset_yearly_stats p2 now else p2

/-- `RiskProfile.check_discipline` (`models.py` lines 39-85): periodic resets,
then lock/cooldown enforcement, then the four breach checks in order.
Returns the post-state together with the `(allowed, reason)` pair. -/
def check_discipline (p : RiskProfile) (now : DateTime) : RiskProfile × Bool × String :=
  let q := resolve_rollovers p now
  if q.is_locked then
    match q.locked_at with
    | some t =>
        if now.minutes > t.minutes + 720 then
          (reset_daily_stats q now, true, "Trading Allowed (Lock Expired)")
        else
          (q, false, "Account Locked: " ++ optStr q.lock_reason)
    | none => (q, false, "Account Locked: " ++ optStr q.lock_reason)
  else if q.current_daily_loss ≥ q.max_daily_loss then
    (lock_account q ("Daily Loss Limit ($" ++ fmtDec2 q.max_daily_loss ++ ") hit.") now,
     false, "Daily Loss Limit Exceeded")
  else if q.trades_today ≥ q.max_trades_per_day then
    (lock_account q ("Max Daily Trades (" ++ toString q.max_trades_per_day ++ ") hit.") now,
     false, "Max Daily Trades Limit Exceeded")
  else if q.trades_this_month ≥ q.max_trades_monthly then
    (lock_account q ("Max Monthly Trades (" ++ toString q.max_trades_monthly ++ ") hit.") now,
     false, "Max Monthly Trades Limit Exceeded")
  else if q.trades_this_year ≥ q.max_trades_yearly then
    (lock_account q ("Max Yearly Trades (" ++ toString q.max_trades_yearly ++ ") hit.") now,
     false, "Max Yearly Trades Limit Exceeded")
  else
    (q, true, "Trading Allowed")

/-- Truthiness of `trade.pnl` in `perform_update` (`journal/views.py` line 75):
a `Decimal` is falsy when `None` or zero. -/
def pnlTruthy : Option Int → Bool
  | none => false
  | some v => v ≠ 0

/-- Value of `abs(trade.pnl)` (`journal/views.py` line 78). -/
def pnlAbs : Option Int → Int
  | none => 0
  | some v => |v|

/-- Risk-engine part of `TradeViewSet.perform_create` (`journal/views.py`
lines 35-52): increments the three trade counters, then runs
`check_discipline` (whose decision the HTTP layer discards but which we
keep, as the Activity Recorder contract returns it). -/
def perform_create (p : RiskProfile) (now : DateTime) : RiskProfile × Bool × String :=
  let p1 := { p with trades_today := p.trades_today + 1,
                     trades_this_month := p.trades_this_month + 1,
                     trades_this_year := p.trades_this_year + 1 }
  check_discipline p1 now

/-- Risk-engine part of `TradeViewSet.perform_update` (`journal/views.py`
lines 65-81): on an OPEN→CLOSED transition with result equal to LOSS and a
truthy `pnl`, add `abs(pnl)` to the daily loss and re-run `check_discipline`.
Returns the post-state and the decision of that inner call (if any). -/
def perform_update (p : RiskProfile) (old_status new_status : String)
    (result : Option String) (pnl : Option Int) (now : DateTime) :
    RiskProfile × Option (Bool × String) :=
  if old_status = "OPEN" ∧ new_status = "CLOSED" then
    if result = some ("LOSS") ∧ pnlTruthy pnl then
      let p1 := { p with current_daily_loss := p.current_daily_loss + pnlAbs pnl }
      let r := check_discipline p1 now
      (r.1, some r.2)
    else (p, none)
  else (p, none)

/-- Patchable limit fields of `RiskProfileSerializer` (`serializers.py`):
only `max_daily_loss` and `max_trades_per_day` are exposed and writable. -/
structure RiskLimits where
  max_daily_loss : Int
  max_trades_per_day : Int
deriving DecidableEq, Repr

/-- PATCH branch of `RiskProfileViewSet.current` (`risk_engine/views.py`
lines 26-48): raises `ValidationError` while locked, otherwise saves the
new limits. -/
def update_limits (p : RiskProfile) (l : RiskLimits) : Except String RiskProfile :=
  if p.is_locked then
    Except.error ("Changes to Risk limits are prohibited while the terminal is locked. Integrity is key.")
  else
    Except.ok { p with max_daily_loss := l.max_daily_loss,
                       max_trades_per_day := l.max_trades_per_day }

/-- Risk-engine part of `TradeViewSet.full_reset` (`journal/views.py`
lines 194-209): calls `reset_daily_stats` on the profile. -/
def full_reset (p : RiskProfile) (now : DateTime) : RiskProfile :=
  reset_daily_stats p now

/-- `RiskProfileViewSet.reset_demo` (`risk_engine/views.py` lines 50-58):
also just calls `reset_daily_stats`. -/
def reset_demo (p : RiskProfile) (now : DateTime) : RiskProfile :=
  reset_daily_stats p now

/-- Freshly auto-provisioned profile with the model-field defaults
(`models.py` lines 15-34, `risk_engine/views.py` line 24), created on a day
`d`. -/
def initProfile (d : Date) : RiskProfile :=
  { max_daily_loss := 20000, max_trades_per_day := 5,
    max_trades_monthly := 100, max_trades_yearly := 1000,
    current_daily_loss := 0, trades_today := 0,
    trades_this_month := 0, trades_this_year := 0,
    is_locked := false, lock_reason := none, locked_at := none,
    last_reset_date := d, last_monthly_reset := d, last_yearly_reset := d }

/-! Concrete inputs shared by witnesses and counterexamples. -/

/-- Sample calendar day. -/
def d0 : Date := ⟨2025, 3, 10⟩

/-- The day after `d0`. -/
def d1 : Date := ⟨2025, 3, 11⟩

/-- Sample instant on day `d0`. -/
def t0 : DateTime := ⟨1000000, d0⟩

/-- Profile locked on `d0` at `t0` with activity in every period counter. -/
def pPeriods : RiskProfile :=
  { initProfile d0 with
      trades_this_month := 7
      trades_this_year := 9
      trades_today := 4
      current_daily_loss := 5000
      is_locked := true
      lock_reason := some ("Daily Loss Limit ($200.00) hit.")
      locked_at := some t0 }

/-- Profile locked on `d0` at `t0` with zero counters. -/
def pLockedClean : RiskProfile :=
  { initProfile d0 with
      is_locked := true
      lock_reason := some ("Daily Loss Limit ($200.00) hit.")
      locked_at := some t0 }

/-! Helper lemmas. First, projection lemmas for the three mutators, so proofs
can reason about them without unfolding the record updates. -/

@[simp] theorem reset_daily_stats_loss (p : RiskProfile) (now : DateTime) :
    (reset_daily_stats p now).current_daily_loss = 0 := rfl

@[simp] theorem reset_daily_stats_today (p : RiskProfile) (now : DateTime) :
    (reset_daily_stats p now).trades_today = 0 := rfl

@[simp] theorem reset_daily_stats_month (p : RiskProfile) (now : DateTime) :
    (reset_daily_stats p now).trades_this_month = p.trades_this_month := rfl

@[simp] theorem reset_daily_stats_year (p : RiskProfile) (now : DateTime) :
    (reset_daily_stats p now).trades_this_year = p.trades_this_year := rfl

@[simp] theorem reset_daily_stats_locked (p : RiskProfile) (now : DateTime) :
    (reset_daily_stats p now).is_locked = false := rfl

@[simp] theorem reset_daily_stats_reason (p : RiskProfile) (now : DateTime) :
    (reset_daily_stats p now).lock_reason = none := rfl

@[simp] theorem reset_daily_stats_at (p : RiskProfile) (now : DateTime) :
    (reset_daily_stats p now).locked_at = none := rfl

@[simp] theorem reset_daily_stats_marker (p : RiskProfile) (now : DateTime) :
    (reset_daily_stats p now).last_reset_date = now.date := rfl

@[simp] theorem reset_daily_stats_monthly_marker (p : RiskProfile) (now : DateTime) :
    (reset_daily_stats p now).last_monthly_reset = p.last_monthly_reset := rfl

@[simp] theorem reset_daily_stats_yearly_marker (p : RiskProfile) (now : DateTime) :
    (reset_daily_stats p now).last_yearly_reset = p.last_yearly_reset := rfl

@[simp] theorem reset_daily_stats_max1 (p : RiskProfile) (now : DateTime) :
    (reset_daily_stats p now).max_daily_loss = p.max_daily_loss := rfl

@[simp] theorem reset_daily_stats_max2 (p : RiskProfile) (now : DateTime) :
    (reset_daily_stats p now).max_trades_per_day = p.max_trades_per_day := rfl

@[simp] theorem reset_daily_stats_max3 (p : RiskProfile) (now : DateTime) :
    (reset_daily_stats p now).max_trades_monthly = p.max_trades_monthly := rfl

@[simp] theorem reset_daily_stats_max4 (p : RiskProfile) (now : DateTime) :
    (reset_daily_stats p now).max_trades_yearly = p.max_trades_yearly := rfl

@[simp] theorem lock_account_locked (p : RiskProfile) (r : String) (now : DateTime) :
    (lock_account p r now).is_locked = true := rfl

@[simp] theorem lock_account_reason (p : RiskProfile) (r : String) (now : DateTime) :
    (lock_account p r now).lock_reason = some r := rfl

@[simp] theorem lock_account_at (p : RiskProfile) (r : String) (now : DateTime) :
    (lock_account p r now).locked_at = some now := rfl

@[simp] theorem lock_account_loss (p : RiskProfile) (r : String) (now : DateTime) :
    (lock_account p r now).current_daily_loss = p.current_daily_loss := rfl

@[simp] theorem lock_account_today (p : RiskProfile) (r : String) (now : DateTime) :
    (lock_account p r now).trades_today = p.trades_today := rfl

@[simp] theorem lock_account_month (p : RiskProfile) (r : String) (now : DateTime) :
    (lock_account p r now).trades_this_month = p.trades_this_month := rfl

@[simp] theorem lock_account_year (p : RiskProfile) (r : String) (now : DateTime) :
    (lock_account p r now).trades_this_year = p.trades_this_year := rfl

@[simp] theorem lock_account_marker (p : RiskProfile) (r : String) (now : DateTime) :
    (lock_account p r now).last_reset_date = p.last_reset_date := rfl

@[simp] theorem lock_account_monthly_marker (p : RiskProfile) (r : String) (now : DateTime) :
    (lock_account p r now).last_monthly_reset = p.last_monthly_reset := rfl

@[simp] theorem lock_account_yearly_marker (p : RiskProfile) (r : String) (now : DateTime) :
    (lock_account p r now).last_yearly_reset = p.last_yearly_reset := rfl

@[simp] theorem lock_account_max1 (p : RiskProfile) (r : String) (now : DateTime) :
    (lock_account p r now).max_daily_loss = p.max_daily_loss := rfl

@[simp] theorem lock_account_max2 (p : RiskProfile) (r : String) (now : DateTime) :
    (lock_account p r now).max_trades_per_day = p.max_trades_per_day := rfl

@[simp] theorem lock_account_max3 (p : RiskProfile) (r : String) (now : DateTime) :
    (lock_account p r now).max_trades_monthly = p.max_trades_monthly := rfl

@[simp] theorem lock_account_max4 (p : RiskProfile) (r : String) (now : DateTime) :
    (lock_account p r now).max_trades_yearly = p.max_trades_yearly := rfl

/-- When all three rollover markers already match `now`, the periodic-reset
block of `check_discipline` leaves the profile untouched. -/
theorem resolve_rollovers_noop (p : RiskProfile) (now : DateTime)
    (hd : p.last_reset_date = now.date)
    (hm : p.last_monthly_reset.month = now.date.month)
    (hmy : p.last_monthly_reset.year = now.date.year)
    (hy : p.last_yearly_reset.year = now.date.year) :
    resolve_rollovers p now = p := by
  unfold resolve_rollovers
  simp [hd, hm, hmy, hy]

/-- Branch lemma: an unlocked, rollover-free profile at or past its daily
loss limit is locked with the daily-loss reason. -/
theorem check_discipline_daily_breach (p : RiskProfile) (now : DateTime)
    (hd : p.last_reset_date = now.date)
    (hm : p.last_monthly_reset.month = now.date.month)
    (hmy : p.last_monthly_reset.year = now.date.year)
    (hy : p.last_yearly_reset.year = now.date.year)
    (hu : p.is_locked = false)
    (h1 : p.max_daily_loss ≤ p.current_daily_loss) :
    check_discipline p now =
      (lock_account p ("Daily Loss Limit ($" ++ fmtDec2 p.max_daily_loss ++ ") hit.") now,
       false, "Daily Loss Limit Exceeded") := by
  have hq := resolve_rollovers_noop p now hd hm hmy hy
  simp [check_discipline, hq, hu, h1]

/-- Branch lemma: a locked, rollover-free profile whose cooldown has not
expired is left untouched and denied with the stored reason. -/
theorem check_discipline_locked_stays (p : RiskProfile) (now : DateTime)
    (hd : p.last_reset_date = now.date)
    (hm : p.last_monthly_reset.month = now.date.month)
    (hmy : p.last_monthly_reset.year = now.date.year)
    (hy : p.last_yearly_reset.year = now.date.year)
    (hl : p.is_locked = true)
    (hne : ∀ t, p.locked_at = some t → ¬ (t.minutes + 720 < now.minutes)) :
    check_discipline p now = (p, false, "Account Locked: " ++ optStr p.lock_reason) := by
  have hq := resolve_rollovers_noop p now hd hm hmy hy
  cases hA : p.locked_at with
  | none => simp [check_discipline, hq, hl, hA]
  | some t => simp [check_discipline, hq, hl, hA, hne t hA]

/-! C5 — the administrative reset. -/

/-- C5 (code_bug): `full_reset` claims (in its own docstring) to reset the
Daily/Monthly/Yearly trade counts, but it only calls `reset_daily_stats`:
on a profile with `trades_this_month = 7` and `trades_this_year = 9` those
two counters survive the reset, while the daily fields and the lock are
cleared. -/
theorem full_reset_keeps_period_counters :
    (full_reset pPeriods t0).trades_this_month = 7 ∧
    (full_reset pPeriods t0).trades_this_year = 9 ∧
    (full_reset pPeriods t0).trades_today = 0 ∧
    (full_reset pPeriods t0).current_daily_loss = 0 ∧
    (full_reset pPeriods t0).is_locked = false :=
  ⟨rfl, rfl, rfl, rfl, rfl⟩

/-! C8 — limit edits while locked. -/

/-- C8 (confirmed): the PATCH handler raises a `ValidationError` whenever the
profile is locked — it never returns a saved profile — and on an unlocked
profile it saves exactly the submitted limits, leaving all other fields
unchanged. -/
theorem update_limits_spec (p : RiskProfile) (l : RiskLimits) :
    (p.is_locked = true →
      update_limits p l =
        Except.error ("Changes to Risk limits are prohibited while the terminal is locked. Integrity is key.") ∧
      ∀ q, update_limits p l ≠ Except.ok q) ∧
    (p.is_locked = false →
      update_limits p l =
        Except.ok { p with max_daily_loss := l.max_daily_loss,
                           max_trades_per_day := l.max_trades_per_day }) := by
  constructor
  · intro h
    refine ⟨by simp [update_limits, h], ?_⟩
    intro q
    simp [update_limits, h]
  · intro h
    simp [update_limits, h]

/-- Witness for C8: a locked profile is rejected with the exact error message,
an unlocked one gets the new limits applied. -/
theorem update_limits_spec_witness :
    update_limits pLockedClean ⟨30000, 7⟩ =
      Except.error ("Changes to Risk limits are prohibited while the terminal is locked. Integrity is key.") ∧
    update_limits (initProfile d0) ⟨30000, 7⟩ =
      Except.ok { initProfile d0 with max_daily_loss := 30000, max_trades_per_day := 7 } := by
  constructor
  · exact ((update_limits_spec pLockedClean ⟨30000, 7⟩).1 rfl).1
  · exact (update_limits_spec (initProfile d0) ⟨30000, 7⟩).2 rfl

/-! C1 — the cooldown boundary. -/

/-- Locked profile with three trades recorded this month. -/
def pLockedM3 : RiskProfile := { pLockedClean with trades_this_month := 3 }

/-- C1 (counterexample): for the profile locked at `t0` with
`trades_this_month = 3`, a call 12h01m later on the same day does return
`(true, "Trading Allowed (Lock Expired)")` but leaves `trades_this_month = 3`
(not zero, contradicting "all counters ... are zero"), and a call 13h20m
later on the *next* day — still `now > T + 12h` — returns
`(true, "Trading Allowed")`, not `(true, "Trading Allowed (Lock Expired)")`. -/
theorem C1_counterexample :
    (check_discipline pLockedM3 ⟨1000721, d0⟩).2 = (true, "Trading Allowed (Lock Expired)") ∧
    (check_discipline pLockedM3 ⟨1000721, d0⟩).1.trades_this_month = 3 ∧
    (check_discipline pLockedM3 ⟨1000800, d1⟩).2 = (true, "Trading Allowed") ∧
    (check_discipline pLockedM3 ⟨1000800, d1⟩).2 ≠ (true, "Trading Allowed (Lock Expired)") := by
  refine ⟨rfl, rfl, rfl, ?_⟩
  decide

/-- Branch lemma: on a call whose calendar day differs from the daily
marker, the rollover clears any lock before the cooldown test, so the
Lock Expired decision is never produced. -/
theorem check_discipline_rollover_no_expiry (p : RiskProfile) (now : DateTime)
    (hne : p.last_reset_date ≠ now.date) :
    (check_discipline p now).2 ≠ (true, "Trading Allowed (Lock Expired)") := by
  unfold check_discipline resolve_rollovers
  simp only [hne, ne_eq, not_false_eq_true, if_true]
  split_ifs <;>
    simp [reset_daily_stats, reset_monthly_stats, reset_yearly_stats, lock_account]

/-- C1 (corrected): for a profile locked at `T` whose rollover markers match
`now` (same calendar day/month/year): while `now ≤ T + 12h` the call returns
`(false, "Account Locked: <reason>")` and leaves the profile untouched;
once `now > T + 12h` it performs the daily reset and returns
`(true, "Trading Allowed (Lock Expired)")`, after which `current_daily_loss`
and `trades_today` are zero and the lock is cleared, while
`trades_this_month` and `trades_this_year` are NOT zeroed but preserved.
On a call made on a later calendar day the daily rollover clears the lock
first, so the Lock Expired decision is never returned there. -/
theorem cooldown_boundary_same_day (p : RiskProfile) (now T : DateTime)
    (hl : p.is_locked = true) (hT : p.locked_at = some T)
    (hd : p.last_reset_date = now.date)
    (hm : p.last_monthly_reset.month = now.date.month)
    (hmy : p.last_monthly_reset.year = now.date.year)
    (hy : p.last_yearly_reset.year = now.date.year) :
    (now.minutes ≤ T.minutes + 720 →
      (check_discipline p now).2 = (false, "Account Locked: " ++ optStr p.lock_reason) ∧
      (check_discipline p now).1 = p) ∧
    (T.minutes + 720 < now.minutes →
      (check_discipline p now).2 = (true, "Trading Allowed (Lock Expired)") ∧
      (check_discipline p now).1.current_daily_loss = 0 ∧
      (check_discipline p now).1.trades_today = 0 ∧
      (check_discipline p now).1.is_locked = false ∧
      (check_discipline p now).1.trades_this_month = p.trades_this_month ∧
      (check_discipline p now).1.trades_this_year = p.trades_this_year) ∧
    (∀ later : DateTime, p.last_reset_date ≠ later.date →
      (check_discipline p later).2 ≠ (true, "Trading Allowed (Lock Expired)")) := by
  have hq := resolve_rollovers_noop p now hd hm hmy hy
  refine ⟨?_, ?_, ?_⟩
  · intro h
    have hlt : ¬ (T.minutes + 720 < now.minutes) := by omega
    simp [check_discipline, hq, hl, hT, hlt]
  · intro h
    simp [check_discipline, hq, hl, hT, h, reset_daily_stats]
  · intro later hne
    exact check_discipline_rollover_no_expiry p later hne

/-- Witness for the corrected C1 statement: the locked profile `pLockedM3` is
still denied 8h20m after the lock and unlocked 12h01m after it. -/
theorem cooldown_boundary_same_day_witness :
    (check_discipline pLockedM3 ⟨1000500, d0⟩).1 = pLockedM3 ∧
    (check_discipline pLockedM3 ⟨1000721, d0⟩).1.is_locked = false ∧
    (check_discipline pLockedM3 ⟨1000800, d1⟩).2 ≠ (true, "Trading Allowed (Lock Expired)") := by
  refine ⟨((cooldown_boundary_same_day pLockedM3 ⟨1000500, d0⟩ t0
      rfl rfl rfl rfl rfl rfl).1 (by decide)).2, ?_, ?_⟩
  · exact (((cooldown_boundary_same_day pLockedM3 ⟨1000721, d0⟩ t0
      rfl rfl rfl rfl rfl rfl).2.1) (by decide)).2.2.2.1
  · exact (cooldown_boundary_same_day pLockedM3 ⟨1000721, d0⟩ t0
      rfl rfl rfl rfl rfl rfl).2.2 ⟨1000800, d1⟩ (by decide)

/-! C7 — breach precedence and the use of ≥. -/

/-- C7 (confirmed): on an unlocked, rollover-free profile breaching both the
daily-loss limit and the daily trade cap (each with `≥`, so the boundary case
counts), `check_discipline` locks with the daily-loss reason — the loss check
wins — and returns the daily-loss denial. -/
theorem check_discipline_precedence (p : RiskProfile) (now : DateTime)
    (hd : p.last_reset_date = now.date)
    (hm : p.last_monthly_reset.month = now.date.month)
    (hmy : p.last_monthly_reset.year = now.date.year)
    (hy : p.last_yearly_reset.year = now.date.year)
    (hu : p.is_locked = false)
    (h1 : p.max_daily_loss ≤ p.current_daily_loss)
    (h2 : p.max_trades_per_day ≤ p.trades_today) :
    (check_discipline p now).2 = (false, "Daily Loss Limit Exceeded") ∧
    (check_discipline p now).1 =
      lock_account p ("Daily Loss Limit ($" ++ fmtDec2 p.max_daily_loss ++ ") hit.") now ∧
    (check_discipline p now).1.is_locked = true ∧
    (check_discipline p now).1.lock_reason =
      some ("Daily Loss Limit ($" ++ fmtDec2 p.max_daily_loss ++ ") hit.") := by
  have hq := resolve_rollovers_noop p now hd hm hmy hy
  simp [check_discipline, hq, hu, h1, lock_account]

/-- Boundary profile: loss exactly at the limit, trade count exactly at the
cap. -/
def pBoundary : RiskProfile :=
  { initProfile d0 with current_daily_loss := 20000, trades_today := 5 }

/-- Witness for the confirmed C7 statement at the exact `≥` boundary (`loss = limit`,
`trades = cap`): the daily-loss reason wins. -/
theorem check_discipline_precedence_witness :
    (check_discipline pBoundary t0).2 = (false, "Daily Loss Limit Exceeded") ∧
    (check_discipline pBoundary t0).1.lock_reason =
      some ("Daily Loss Limit ($200.00) hit.") := by
  have h := check_discipline_precedence pBoundary t0 rfl rfl rfl rfl rfl
    (by decide) (by decide)
  exact ⟨h.1, h.2.2.2.trans (by decide)⟩

/-! C9 — cooldown expiry skips the breach checks. -/

/-- C9 (confirmed): when the cooldown-expiry branch fires it returns
`(true, "Trading Allowed (Lock Expired)")` immediately, even though the
monthly cap is still breached (`reset_daily_stats` does not touch
`trades_this_month`); only the next `check_discipline` call re-locks, with
the monthly-cap reason. -/
theorem cooldown_skips_breach_check (p : RiskProfile) (now T : DateTime)
    (hd : p.last_reset_date = now.date)
    (hm : p.last_monthly_reset.month = now.date.month)
    (hmy : p.last_monthly_reset.year = now.date.year)
    (hy : p.last_yearly_reset.year = now.date.year)
    (hl : p.is_locked = true) (hT : p.locked_at = some T)
    (hexp : T.minutes + 720 < now.minutes)
    (hmb : p.max_trades_monthly ≤ p.trades_this_month)
    (hdl : 0 < p.max_daily_loss) (hdt : 0 < p.max_trades_per_day) :
    (check_discipline p now).2 = (true, "Trading Allowed (Lock Expired)") ∧
    p.max_trades_monthly ≤ (check_discipline p now).1.trades_this_month ∧
    (check_discipline (check_discipline p now).1 now).2 =
      (false, "Max Monthly Trades Limit Exceeded") ∧
    (check_discipline (check_discipline p now).1 now).1.is_locked = true ∧
    (check_discipline (check_discipline p now).1 now).1.lock_reason =
      some ("Max Monthly Trades (" ++ toString p.max_trades_monthly ++ ") hit.") := by
  have hq := resolve_rollovers_noop p now hd hm hmy hy
  have e1 : check_discipline p now =
      (reset_daily_stats p now, true, "Trading Allowed (Lock Expired)") := by
    simp [check_discipline, hq, hl, hT, hexp]
  have hq2 : resolve_rollovers (reset_daily_stats p now) now = reset_daily_stats p now :=
    resolve_rollovers_noop _ now rfl hm hmy hy
  have hnl : ¬ (p.max_daily_loss ≤ 0) := by omega
  have hnt : ¬ (p.max_trades_per_day ≤ 0) := by omega
  have e2 : check_discipline (reset_daily_stats p now) now =
      (lock_account (reset_daily_stats p now)
        ("Max Monthly Trades (" ++ toString p.max_trades_monthly ++ ") hit.") now,
       false, "Max Monthly Trades Limit Exceeded") := by
    simp [check_discipline, hq2, hnl, hnt, hmb]
  rw [e1]
  refine ⟨rfl, by simpa using hmb, ?_, ?_, ?_⟩ <;> rw [show (reset_daily_stats p now,
    true, "Trading Allowed (Lock Expired)").1 = reset_daily_stats p now from rfl, e2] <;> simp

/-- Locked profile sitting exactly at its monthly cap. -/
def pMonthlyCap : RiskProfile := { pLockedClean with trades_this_month := 100 }

/-- Witness for C9: `pMonthlyCap`, 12h01m after its lock, is allowed by the
expiry branch despite the breached monthly cap, and the following call locks
it again with the monthly reason. -/
theorem cooldown_skips_breach_check_witness :
    (check_discipline pMonthlyCap ⟨1000721, d0⟩).2 = (true, "Trading Allowed (Lock Expired)") ∧
    (check_discipline (check_discipline pMonthlyCap ⟨1000721, d0⟩).1 ⟨1000721, d0⟩).2 =
      (false, "Max Monthly Trades Limit Exceeded") := by
  have h := cooldown_skips_breach_check pMonthlyCap ⟨1000721, d0⟩ t0
    rfl rfl rfl rfl rfl rfl (by decide) (by decide) (by decide) (by decide)
  exact ⟨h.1, h.2.2.1⟩

/-! C10 — a lock with no timestamp never expires. -/

/-- Projections of `resolve_rollovers` when no daily rollover is due: the
monthly/yearly resets never touch the lock state or the daily fields. -/
theorem resolve_rollovers_same_day (p : RiskProfile) (now : DateTime)
    (hd : p.last_reset_date = now.date) :
    (resolve_rollovers p now).is_locked = p.is_locked ∧
    (resolve_rollovers p now).locked_at = p.locked_at ∧
    (resolve_rollovers p now).lock_reason = p.lock_reason ∧
    (resolve_rollovers p now).current_daily_loss = p.current_daily_loss := by
  unfold resolve_rollovers
  simp only [hd, ne_eq, not_true_eq_false, if_false]
  split_ifs <;> simp [reset_monthly_stats, reset_yearly_stats]

/-- C10 (confirmed): if `is_locked` is true but `locked_at` is `None`, the
cooldown-expiry branch can never fire — no call ever returns
`(true, "Trading Allowed (Lock Expired)")` — and on any call without a
calendar-day rollover the decision is
`(false, "Account Locked: <lockReason>")` and the lock survives; only a
day rollover (or an administrative reset) can clear it. -/
theorem locked_without_timestamp (p : RiskProfile)
    (hl : p.is_locked = true) (hT : p.locked_at = none) :
    (∀ now, (check_discipline p now).2 ≠ (true, "Trading Allowed (Lock Expired)")) ∧
    (∀ now, p.last_reset_date = now.date →
      (check_discipline p now).2 = (false, "Account Locked: " ++ optStr p.lock_reason) ∧
      (check_discipline p now).1.is_locked = true ∧
      (check_discipline p now).1.locked_at = none) := by
  have key : ∀ now, p.last_reset_date = now.date →
      (check_discipline p now).2 = (false, "Account Locked: " ++ optStr p.lock_reason) ∧
      (check_discipline p now).1.is_locked = true ∧
      (check_discipline p now).1.locked_at = none := by
    intro now hd
    obtain ⟨e1, e2, e3, -⟩ := resolve_rollovers_same_day p now hd
    simp [check_discipline, e1, e2, e3, hl, hT]
  refine ⟨?_, key⟩
  intro now
  by_cases hd : p.last_reset_date = now.date
  · rw [(key now hd).1]
    simp
  · unfold check_discipline resolve_rollovers
    simp only [hd, ne_eq, not_false_eq_true, if_true]
    split_ifs <;>
      simp [reset_daily_stats, reset_monthly_stats, reset_yearly_stats, lock_account]

/-- Locked profile with a reason but no lock timestamp. -/
def pNoStamp : RiskProfile :=
  { initProfile d0 with is_locked := true, lock_reason := some ("Manual Lock") }

/-- Witness for C10: `pNoStamp` never reaches the expiry branch (tried on the
next day with 13h20m elapsed) and stays locked on a same-day call. -/
theorem locked_without_timestamp_witness :
    (check_discipline pNoStamp ⟨1000800, d1⟩).2 ≠ (true, "Trading Allowed (Lock Expired)") ∧
    (check_discipline pNoStamp t0).2 = (false, "Account Locked: Manual Lock") := by
  refine ⟨(locked_without_timestamp pNoStamp rfl rfl).1 ⟨1000800, d1⟩, ?_⟩
  exact (((locked_without_timestamp pNoStamp rfl rfl).2 t0 rfl).1).trans (by decide)

/-! C2 — the daily-loss breach scenario on trade close. -/

/-- Unlocked profile with $180.00 of realized daily loss. -/
def p180 : RiskProfile := { initProfile d0 with current_daily_loss := 18000 }

/-- C2 (counterexample): closing a LOSS trade with `pnl = -25` on `p180`
(`currentDailyLoss=180`, `maxDailyLoss=200`) makes the inner
`check_discipline` return `(false, "Daily Loss Limit Exceeded")`, not
`(false, "Account Locked: Daily Loss Limit ($200) hit.")` as the claim
states — the "Account Locked: ..." form only appears from the next call. -/
theorem C2_counterexample :
    (perform_update p180 ("OPEN") ("CLOSED") (some ("LOSS")) (some (-2500)) t0).2 =
      some (false, "Daily Loss Limit Exceeded") ∧
    (perform_update p180 ("OPEN") ("CLOSED") (some ("LOSS")) (some (-2500)) t0).2 ≠
      some (false, "Account Locked: Daily Loss Limit ($200) hit.") := by
  exact ⟨rfl, by decide⟩

/-- C2 (corrected): on any unlocked, rollover-free profile with
`currentDailyLoss = 180.00` and `maxDailyLoss = 200.00`, closing a LOSS trade
with `pnl = -25.00` sets `currentDailyLoss = 205.00`, locks the account with
`lock_reason = "Daily Loss Limit ($200.00) hit."`, and the decision returned
by that call is `(false, "Daily Loss Limit Exceeded")`; only a subsequent
`check_discipline` call returns
`(false, "Account Locked: Daily Loss Limit ($200.00) hit.")`. -/
theorem perform_update_daily_loss_breach (p : RiskProfile) (now : DateTime)
    (hd : p.last_reset_date = now.date)
    (hm : p.last_monthly_reset.month = now.date.month)
    (hmy : p.last_monthly_reset.year = now.date.year)
    (hy : p.last_yearly_reset.year = now.date.year)
    (hu : p.is_locked = false)
    (hloss : p.current_daily_loss = 18000) (hmax : p.max_daily_loss = 20000) :
    (perform_update p ("OPEN") ("CLOSED") (some ("LOSS")) (some (-2500)) now).1.current_daily_loss = 20500 ∧
    (perform_update p ("OPEN") ("CLOSED") (some ("LOSS")) (some (-2500)) now).1.is_locked = true ∧
    (perform_update p ("OPEN") ("CLOSED") (some ("LOSS")) (some (-2500)) now).1.lock_reason =
      some ("Daily Loss Limit ($200.00) hit.") ∧
    (perform_update p ("OPEN") ("CLOSED") (some ("LOSS")) (some (-2500)) now).2 =
      some (false, "Daily Loss Limit Exceeded") ∧
    (check_discipline (perform_update p ("OPEN") ("CLOSED") (some ("LOSS")) (some (-2500)) now).1 now).2 =
      (false, "Account Locked: Daily Loss Limit ($200.00) hit.") := by
  have habs : pnlAbs (some (-2500)) = 2500 := rfl
  have hge : ({ p with current_daily_loss := p.current_daily_loss + pnlAbs (some (-2500)) } :
      RiskProfile).max_daily_loss ≤
      ({ p with current_daily_loss := p.current_daily_loss + pnlAbs (some (-2500)) } :
      RiskProfile).current_daily_loss := by
    simp [habs, hloss, hmax]
  have e1 := check_discipline_daily_breach
    { p with current_daily_loss := p.current_daily_loss + pnlAbs (some (-2500)) } now
    hd hm hmy hy hu hge
  have ep : perform_update p ("OPEN") ("CLOSED") (some ("LOSS")) (some (-2500)) now =
      ((check_discipline
          { p with current_daily_loss := p.current_daily_loss + pnlAbs (some (-2500)) } now).1,
       some (check_discipline
          { p with current_daily_loss := p.current_daily_loss + pnlAbs (some (-2500)) } now).2) := by
    simp [perform_update, pnlTruthy]
  have hstr : ("Daily Loss Limit ($" ++
      fmtDec2 ({ p with current_daily_loss := p.current_daily_loss + pnlAbs (some (-2500))} :
        RiskProfile).max_daily_loss ++ ") hit.") =
      "Daily Loss Limit ($200.00) hit." := by
    show ("Daily Loss Limit ($" ++ fmtDec2 p.max_daily_loss ++ ") hit.") = _
    rw [hmax]
    decide
  rw [ep, e1]
  refine ⟨by simp [habs, hloss], rfl, by simp [hstr], rfl, ?_⟩
  have e2 := check_discipline_locked_stays
    (lock_account { p with current_daily_loss := p.current_daily_loss + pnlAbs (some (-2500)) }
      ("Daily Loss Limit ($" ++
        fmtDec2 ({ p with current_daily_loss := p.current_daily_loss + pnlAbs (some (-2500))} :
          RiskProfile).max_daily_loss ++ ") hit.") now) now
    hd hm hmy hy rfl
    (fun t ht => by
      have hnt : now = t := by simpa using ht
      subst hnt
      omega)
  rw [show ((lock_account { p with current_daily_loss := p.current_daily_loss + pnlAbs (some (-2500)) }
      ("Daily Loss Limit ($" ++
        fmtDec2 ({ p with current_daily_loss := p.current_daily_loss + pnlAbs (some (-2500))} :
          RiskProfile).max_daily_loss ++ ") hit.") now,
      false, "Daily Loss Limit Exceeded") :
      RiskProfile × Bool × String).1 = lock_account
        { p with current_daily_loss := p.current_daily_loss + pnlAbs (some (-2500)) }
        ("Daily Loss Limit ($" ++
          fmtDec2 ({ p with current_daily_loss := p.current_daily_loss + pnlAbs (some (-2500))} :
            RiskProfile).max_daily_loss ++ ") hit.") now from rfl, e2]
  simp [optStr, hstr]

/-- Witness for the corrected C2 statement at the concrete profile `p180`. -/
theorem perform_update_daily_loss_breach_witness :
    (perform_update p180 ("OPEN") ("CLOSED") (some ("LOSS")) (some (-2500)) t0).1.current_daily_loss = 20500 ∧
    (perform_update p180 ("OPEN") ("CLOSED") (some ("LOSS")) (some (-2500)) t0).1.is_locked = true := by
  have h := perform_update_daily_loss_breach p180 t0 rfl rfl rfl rfl rfl rfl rfl
  exact ⟨h.1, h.2.1⟩

/-! C4 — what triggers loss accumulation on trade close. -/

/-- C4 (counterexample): a trade closed as LOSS with *positive* `pnl = +25`
still adds 25 to `currentDailyLoss` (the code keys on the result field being LOSS and
truthiness of `pnl`, not on `pnl < 0`), while a trade closed as WIN with
*negative* `pnl = -25` leaves the counter untouched — refuting both
directions of "adds iff realizedPnL < 0". -/
theorem C4_counterexample :
    (perform_update (initProfile d0) ("OPEN") ("CLOSED") (some ("LOSS")) (some 2500) t0).1.current_daily_loss = 2500 ∧
    (perform_update p180 ("OPEN") ("CLOSED") (some ("WIN")) (some (-2500)) t0).1.current_daily_loss = 18000 :=
  ⟨rfl, rfl⟩

/-- The inner `check_discipline` call does not change `current_daily_loss`
when no daily rollover is due and no cooldown has expired. -/
theorem check_discipline_preserves_loss (p : RiskProfile) (now : DateTime)
    (hd : p.last_reset_date = now.date)
    (hexp : p.is_locked = true → ∀ t, p.locked_at = some t → now.minutes ≤ t.minutes + 720) :
    (check_discipline p now).1.current_daily_loss = p.current_daily_loss := by
  obtain ⟨e1, e2, e3, e4⟩ := resolve_rollovers_same_day p now hd
  cases hL : p.is_locked with
  | true =>
    cases hA : p.locked_at with
    | none => simp [check_discipline, e1, e2, e4, hL, hA]
    | some t =>
      have hle := hexp hL t hA
      have hne : ¬ (t.minutes + 720 < now.minutes) := by omega
      simp [check_discipline, e1, e2, e4, hL, hA, hne]
  | false =>
    have hL2 : (resolve_rollovers p now).is_locked = false := by rw [e1, hL]
    simp only [check_discipline, hL2, Bool.false_eq_true, if_false]
    split_ifs <;> simp [e4]

/-- C4 (corrected): `perform_update` adds `abs(pnl)` to `currentDailyLoss`
exactly when the trade transitions OPEN→CLOSED with result equal to LOSS and a
non-null, non-zero `pnl` — regardless of the *sign* of `pnl`; in every other
case the counter is untouched. (Stated for calls that trigger neither a
daily rollover nor a cooldown expiry, which re-zero the counter
afterwards.) -/
theorem perform_update_loss_accumulation (p : RiskProfile)
    (old_status new_status : String) (result : Option String) (pnl : Option Int)
    (now : DateTime)
    (hd : p.last_reset_date = now.date)
    (hexp : p.is_locked = true → ∀ t, p.locked_at = some t → now.minutes ≤ t.minutes + 720) :
    (perform_update p old_status new_status result pnl now).1.current_daily_loss =
      (if old_status = "OPEN" ∧ new_status = "CLOSED" ∧
          result = some ("LOSS") ∧ pnlTruthy pnl = true
       then p.current_daily_loss + pnlAbs pnl
       else p.current_daily_loss) := by
  unfold perform_update
  split_ifs <;>
    first
    | rfl
    | tauto
    | exact check_discipline_preserves_loss
        { p with current_daily_loss := p.current_daily_loss + pnlAbs pnl } now hd hexp

/-- Witness for the corrected C4 statement: a WIN trade with negative pnl does
not change the loss counter. -/
theorem perform_update_loss_accumulation_witness :
    (perform_update p180 ("OPEN") ("CLOSED") (some ("WIN")) (some (-2500)) t0).1.current_daily_loss =
      p180.current_daily_loss := by
  have h := perform_update_loss_accumulation p180 ("OPEN") ("CLOSED")
    (some ("WIN")) (some (-2500)) t0 rfl (fun hcontra => absurd hcontra (by decide))
  simpa using h

/-! C3 — idempotence of repeated evaluation. -/

/-- Branch disjunction: an unlocked, rollover-free profile is either left
untouched and allowed, or handed to `lock_account` with some reason and
denied. -/
theorem check_discipline_unlocked_cases (p : RiskProfile) (now : DateTime)
    (hd : p.last_reset_date = now.date)
    (hm : p.last_monthly_reset.month = now.date.month)
    (hmy : p.last_monthly_reset.year = now.date.year)
    (hy : p.last_yearly_reset.year = now.date.year)
    (hu : p.is_locked = false) :
    check_discipline p now = (p, true, "Trading Allowed") ∨
    ∃ r d, check_discipline p now = (lock_account p r now, false, d) := by
  have hq := resolve_rollovers_noop p now hd hm hmy hy
  simp only [check_discipline, hq, hu, Bool.false_eq_true, if_false]
  split_ifs
  · exact Or.inr ⟨_, _, rfl⟩
  · exact Or.inr ⟨_, _, rfl⟩
  · exact Or.inr ⟨_, _, rfl⟩
  · exact Or.inr ⟨_, _, rfl⟩
  · exact Or.inl rfl

/-- C3 (counterexample): two successive calls are NOT always identical.
First, on the breached profile `pBoundary` the first call answers
`(false, "Daily Loss Limit Exceeded")` and the second
`(false, "Account Locked: ...")` — different reason strings. Second, on the
locked profile `pMonthlyCap` whose cooldown has expired, the first call
unlocks but the second call re-locks (monthly cap still breached), so even
the resulting states differ. -/
theorem C3_counterexample :
    (check_discipline pBoundary t0).2 ≠
      (check_discipline (check_discipline pBoundary t0).1 t0).2 ∧
    (check_discipline (check_discipline pMonthlyCap ⟨1000721, d0⟩).1 ⟨1000721, d0⟩).1 ≠
      (check_discipline pMonthlyCap ⟨1000721, d0⟩).1 := by
  constructor
  · decide
  · decide

/-- C3 (corrected): within one calendar day/month/year (no rollover due) and
provided no 12-hour cooldown expires at `now`, calling `check_discipline`
twice in succession yields the same post-state after each call and the same
`allowed` verdict both times — but the *reason string* of the two calls may
differ (first call "Daily Loss Limit Exceeded", second call
"Account Locked: ..."), and a call on which a cooldown expires is not
idempotent when a monthly/yearly cap is still breached. -/
theorem check_discipline_idem (p : RiskProfile) (now : DateTime)
    (hd : p.last_reset_date = now.date)
    (hm : p.last_monthly_reset.month = now.date.month)
    (hmy : p.last_monthly_reset.year = now.date.year)
    (hy : p.last_yearly_reset.year = now.date.year)
    (hexp : p.is_locked = true → ∀ t, p.locked_at = some t → now.minutes ≤ t.minutes + 720) :
    (check_discipline (check_discipline p now).1 now).1 = (check_discipline p now).1 ∧
    (check_discipline (check_discipline p now).1 now).2.1 = (check_discipline p now).2.1 := by
  cases hL : p.is_locked with
  | true =>
    have e1 := check_discipline_locked_stays p now hd hm hmy hy hL
      (fun t ht => by have := hexp hL t ht; omega)
    rw [e1]
    rw [show ((p, false, "Account Locked: " ++ optStr p.lock_reason) :
      RiskProfile × Bool × String).1 = p from rfl, e1]
    exact ⟨rfl, rfl⟩
  | false =>
    rcases check_discipline_unlocked_cases p now hd hm hmy hy hL with e1 | ⟨r, d, e1⟩
    · rw [e1]
      rw [show ((p, true, "Trading Allowed") : RiskProfile × Bool × String).1 = p from rfl, e1]
      exact ⟨rfl, rfl⟩
    · have e2 := check_discipline_locked_stays (lock_account p r now) now hd hm hmy hy rfl
        (fun t ht => by
          have hnt : now = t := by simpa using ht
          subst hnt
          omega)
      rw [e1]
      rw [show ((lock_account p r now, false, d) : RiskProfile × Bool × String).1 =
        lock_account p r now from rfl, e2]
      exact ⟨rfl, rfl⟩

/-- Witness for the corrected C3 statement on the locked profile `pLockedM3`
11h59m into its cooldown. -/
theorem check_discipline_idem_witness :
    (check_discipline (check_discipline pLockedM3 ⟨1000719, d0⟩).1 ⟨1000719, d0⟩).1 =
      (check_discipline pLockedM3 ⟨1000719, d0⟩).1 := by
  have h := check_discipline_idem pLockedM3 ⟨1000719, d0⟩ rfl rfl rfl rfl
    (fun _ t ht => by
      have hnt : t0 = t := by simpa [pLockedM3, pLockedClean] using ht
      subst hnt
      decide)
  exact h.1

/-! C6 — the lock/reason/timestamp invariant. -/

/-- The invariant of the claim: `is_locked` holds iff `lock_reason` is a
non-empty string and `locked_at` is set. -/
def LockInv (p : RiskProfile) : Prop :=
  p.is_locked = true ↔
    ((∃ r, p.lock_reason = some r ∧ 0 < r.length) ∧ ∃ t, p.locked_at = some t)

/-- Profile states reachable from a freshly provisioned profile through the
operations of the engine. `lock_account` is included as invoked in the
codebase: every call site (`check_discipline`) passes a non-empty reason
literal, captured by the `0 < r.length` premise of `lock`. -/
inductive Reachable : RiskProfile → Prop where
  | init (d : Date) : Reachable (initProfile d)
  | check (p : RiskProfile) (now : DateTime) :
      Reachable p → Reachable (check_discipline p now).1
  | opened (p : RiskProfile) (now : DateTime) :
      Reachable p → Reachable (perform_create p now).1
  | closed (p : RiskProfile) (a b : String) (result : Option String)
      (pnl : Option Int) (now : DateTime) :
      Reachable p → Reachable (perform_update p a b result pnl now).1
  | limits (p : RiskProfile) (l : RiskLimits) (q : RiskProfile) :
      Reachable p → update_limits p l = Except.ok q → Reachable q
  | reset (p : RiskProfile) (now : DateTime) :
      Reachable p → Reachable (full_reset p now)
  | demo (p : RiskProfile) (now : DateTime) :
      Reachable p → Reachable (reset_demo p now)
  | lock (p : RiskProfile) (r : String) (now : DateTime) :
      Reachable p → 0 < r.length → Reachable (lock_account p r now)

theorem length_append_pos (a b : String) (h : 0 < a.length) : 0 < (a ++ b).length := by
  rw [String.length_append]
  omega

theorem lockInv_reset_daily (p : RiskProfile) (now : DateTime) :
    LockInv (reset_daily_stats p now) := by
  simp [LockInv]

theorem lockInv_lock (p : RiskProfile) (r : String) (now : DateTime)
    (h : 0 < r.length) : LockInv (lock_account p r now) := by
  simp [LockInv, h]

theorem lockInv_monthly (p : RiskProfile) (now : DateTime) (h : LockInv p) :
    LockInv (reset_monthly_stats p now) := by
  simpa [LockInv, reset_monthly_stats] using h

theorem lockInv_yearly (p : RiskProfile) (now : DateTime) (h : LockInv p) :
    LockInv (reset_yearly_stats p now) := by
  simpa [LockInv, reset_yearly_stats] using h

theorem lockInv_resolve (p : RiskProfile) (now : DateTime) (h : LockInv p) :
    LockInv (resolve_rollovers p now) := by
  unfold resolve_rollovers
  dsimp only
  split_ifs <;>
    first
    | exact h
    | exact lockInv_reset_daily _ _
    | exact lockInv_monthly _ _ h
    | exact lockInv_yearly _ _ h
    | exact lockInv_yearly _ _ (lockInv_monthly _ _ h)
    | exact lockInv_monthly _ _ (lockInv_reset_daily _ _)
    | exact lockInv_yearly _ _ (lockInv_reset_daily _ _)
    | exact lockInv_yearly _ _ (lockInv_monthly _ _ (lockInv_reset_daily _ _))

theorem lockInv_check (p : RiskProfile) (now : DateTime) (h : LockInv p) :
    LockInv (check_discipline p now).1 := by
  have hres := lockInv_resolve p now h
  unfold check_discipline
  by_cases hL : (resolve_rollovers p now).is_locked = true
  · cases hA : (resolve_rollovers p now).locked_at with
    | none => simpa [hL, hA] using hres
    | some t =>
      by_cases hE : t.minutes + 720 < now.minutes
      · simpa [hL, hA, hE] using lockInv_reset_daily (resolve_rollovers p now) now
      · simpa [hL, hA, hE] using hres
  · simp only [hL, if_false, Bool.not_eq_true] at *
    simp only [hL, Bool.false_eq_true, if_false]
    split_ifs <;>
      first
      | simpa using hres
      | exact lockInv_lock _ _ _ (length_append_pos _ _ (length_append_pos _ _ (by decide)))

theorem lockInv_opened (p : RiskProfile) (now : DateTime) (h : LockInv p) :
    LockInv (perform_create p now).1 := by
  unfold perform_create
  exact lockInv_check _ now (by simpa [LockInv] using h)

theorem lockInv_closed (p : RiskProfile) (a b : String) (result : Option String)
    (pnl : Option Int) (now : DateTime) (h : LockInv p) :
    LockInv (perform_update p a b result pnl now).1 := by
  unfold perform_update
  split_ifs
  · exact lockInv_check _ now (by simpa [LockInv] using h)
  · exact h
  · exact h

theorem lockInv_limits (p : RiskProfile) (l : RiskLimits) (q : RiskProfile)
    (h : LockInv p) (e : update_limits p l = Except.ok q) : LockInv q := by
  unfold update_limits at e
  split_ifs at e with hL <;> cases e <;> simpa [LockInv] using h

/-- C6 (confirmed): every reachable profile state satisfies
`is_locked = true` iff `lock_reason` holds a non-empty string and
`locked_at` is set; it holds of the freshly provisioned defaults and is
preserved by `check_discipline`, `lock_account` (as invoked), every reset,
trade-open and trade-close recording, and limit updates. -/
theorem reachable_lock_inv (p : RiskProfile) (h : Reachable p) : LockInv p := by
  induction h with
  | init d => simp [LockInv, initProfile]
  | check p now _ ih => exact lockInv_check p now ih
  | opened p now _ ih => exact lockInv_opened p now ih
  | closed p a b result pnl now _ ih => exact lockInv_closed p a b result pnl now ih
  | limits p l q _ e ih => exact lockInv_limits p l q ih e
  | reset p now _ _ => exact lockInv_reset_daily p now
  | demo p now _ _ => exact lockInv_reset_daily p now
  | lock p r now _ hr _ => exact lockInv_lock p r now hr

/-- Witness for C6: the invariant holds of a provisioned profile after one
trade-open recording. -/
theorem reachable_lock_inv_witness :
    LockInv (perform_create (initProfile d0) t0).1 :=
  reachable_lock_inv _ (Reachable.opened _ t0 (Reachable.init d0))

end GuardAi
